import Mathlib

set_option autoImplicit false

/-
Shallow embedding of the geospatial feature-engineering core of the
multi-state dispensary model (src/feature_engineering/*.py).

Numeric values (coordinates, distances in miles, census counts, areas in
square meters) are modelled as rationals.  The external geodesic distance
(geopy.distance.geodesic(...).miles) is abstracted as a parameter
`d : DistanceFn`; the external Census geocoder and ACS demographic service
are abstracted as response values / oracles supplied to the functions that
consult them.  Python `int(x)` truncation toward zero is `pyInt`.
-/

namespace DispensaryModel

/-- Error taxonomy of src/feature_engineering/exceptions.py:
`DataNotFoundError`, `InvalidStateError`, `InvalidCoordinatesError`. -/
inductive FEError where
  | invalidState
  | invalidCoordinates
  | dataNotFound
  deriving Repr, DecidableEq

/-- One bounding box of MultiStateDataLoader.STATE_BOUNDS. -/
structure StateBounds where
  lat_min : ℚ
  lat_max : ℚ
  lon_min : ℚ
  lon_max : ℚ
  deriving Repr, DecidableEq

/-- data_loader.py STATE_BOUNDS for FL. -/
def FL_BOUNDS : StateBounds := { lat_min := 24.5, lat_max := 31.0, lon_min := -87.6, lon_max := -80.0 }

/-- data_loader.py STATE_BOUNDS for PA. -/
def PA_BOUNDS : StateBounds := { lat_min := 39.7, lat_max := 42.3, lon_min := -80.5, lon_max := -74.7 }

/-- data_loader.py SUPPORTED_STATES. -/
def SUPPORTED_STATES : List String := ["FL", "PA"]

/-- Python `str.upper()` over the character list (ASCII state codes). -/
def pyUpper (s : String) : String := ⟨s.data.map Char.toUpper⟩

/-- Python `str.strip()`: drop whitespace from both ends. -/
def pyStrip (s : String) : String :=
  ⟨(((s.data.dropWhile Char.isWhitespace).reverse).dropWhile Char.isWhitespace).reverse⟩

/-- Python `state.upper().strip()` as applied throughout the calculator. -/
def normalizeState (s : String) : String := pyStrip (pyUpper s)

/-- Analysis radii in miles (CoordinateFeatureCalculator.RADII and
GeographicAnalyzer.RADII_MILES). -/
def RADII : List ℚ := [1, 3, 5, 10, 20]

/-- Square meters per square mile, the 2589988.11 constant of the source. -/
def SQ_METERS_PER_SQ_MILE : ℚ := 2589988.11

/-- Python `int(x)`: truncation toward zero. -/
def pyInt (q : ℚ) : ℤ := if 0 ≤ q then ⌊q⌋ else ⌈q⌉

/-- CoordinateFeatureCalculator._safe_float: `None` becomes the default,
otherwise the value itself (conversion failures are the `none` case of the
typed model). -/
def safe_float (value : Option ℚ) (default : ℚ) : ℚ :=
  match value with
  | none => default
  | some v => v

/-- CoordinateFeatureCalculator._safe_int: `None` becomes the default,
otherwise `int(value)`. -/
def safe_int (value : Option ℚ) (default : ℤ) : ℤ :=
  match value with
  | none => default
  | some v => pyInt v

/-- One row of the loaded per-state census table (columns of
all_tracts_demographics.csv after load_census_data processing). -/
structure CensusTract where
  census_geoid : String
  total_population : ℚ
  median_age : ℚ
  median_household_income : ℚ
  per_capita_income : ℚ
  total_pop_25_plus : ℚ
  bachelors_degree : ℚ
  masters_degree : ℚ
  professional_degree : ℚ
  doctorate_degree : ℚ
  latitude : ℚ
  longitude : ℚ
  tract_area_sqm : ℚ
  population_density : ℚ
  census_data_complete : Bool
  deriving Repr, DecidableEq

/-- One verified dispensary location (competition reference data). -/
structure Dispensary where
  name : String
  latitude : ℚ
  longitude : ℚ
  deriving Repr, DecidableEq

/-- The in-memory state of MultiStateDataLoader after loading. -/
structure MultiStateDataLoader where
  fl_dispensaries : List Dispensary
  pa_dispensaries : List Dispensary
  fl_census : List CensusTract
  pa_census : List CensusTract
  deriving Repr, DecidableEq

/-- Abstraction of geopy geodesic distance in miles between two
(latitude, longitude) points. -/
abbrev DistanceFn := ℚ × ℚ → ℚ × ℚ → ℚ

/-- MultiStateDataLoader.get_state_bounds. -/
def get_state_bounds (state : String) : Except FEError StateBounds :=
  let s := normalizeState state
  if s = "FL" then .ok FL_BOUNDS
  else if s = "PA" then .ok PA_BOUNDS
  else .error .invalidState

/-- MultiStateDataLoader.get_state_data. -/
def get_state_data (loader : MultiStateDataLoader) (state : String) :
    Except FEError (List Dispensary × List CensusTract) :=
  let s := normalizeState state
  if s = "FL" then .ok (loader.fl_dispensaries, loader.fl_census)
  else if s = "PA" then .ok (loader.pa_dispensaries, loader.pa_census)
  else .error .invalidState

/-- CoordinateFeatureCalculator.validate_coordinates: basic range checks,
then the state bounding box (via get_state_bounds). -/
def validate_coordinates (state : String) (latitude longitude : ℚ) :
    Except FEError Unit :=
  if ¬ (-90 ≤ latitude ∧ latitude ≤ 90) then .error .invalidCoordinates
  else if ¬ (-180 ≤ longitude ∧ longitude ≤ 180) then .error .invalidCoordinates
  else
    match get_state_bounds state with
    | .error e => .error e
    | .ok bounds =>
      if ¬ (bounds.lat_min ≤ latitude ∧ latitude ≤ bounds.lat_max) then
        .error .invalidCoordinates
      else if ¬ (bounds.lon_min ≤ longitude ∧ longitude ≤ bounds.lon_max) then
        .error .invalidCoordinates
      else .ok ()

/-- The distance column construction of calculate_population_multi_radius:
each tract paired with its geodesic distance to the target. -/
def tract_distances (d : DistanceFn) (center : ℚ × ℚ) (census : List CensusTract) :
    List (CensusTract × ℚ) :=
  census.map (fun t => (t, d center (t.latitude, t.longitude)))

/-- The per-radius step of calculate_population_multi_radius: filter the
tracts whose distance is within the radius, sum their total_population and
apply `int(...)`. -/
def pop_within_radius (d : DistanceFn) (center : ℚ × ℚ) (census : List CensusTract)
    (radius : ℚ) : ℤ :=
  pyInt ((((tract_distances d center census).filter
    (fun p => decide (p.2 ≤ radius))).map (fun p => p.1.total_population)).sum)

/-- CoordinateFeatureCalculator.calculate_population_multi_radius: validate,
read the state census table, and report `(radius, population)` for each
configured radius. -/
def calculate_population_multi_radius (d : DistanceFn) (loader : MultiStateDataLoader)
    (state : String) (latitude longitude : ℚ) : Except FEError (List (ℚ × ℤ)) := do
  let st := normalizeState state
  let _ ← validate_coordinates st latitude longitude
  let sd ← get_state_data loader st
  .ok (RADII.map (fun r => (r, pop_within_radius d (latitude, longitude) sd.2 r)))

/-- The distance list over dispensaries built by the competition methods. -/
def competitor_distances (d : DistanceFn) (center : ℚ × ℚ) (disps : List Dispensary) :
    List ℚ :=
  disps.map (fun f => d center (f.latitude, f.longitude))

/-- The per-100k normalization used inside
calculate_competitors_multi_radius (and the same formula as
CompetitiveFeatureEngineer.calculate_market_saturation):
`count / population * 100000` when population is positive, else 0. -/
def rate_per_100k (count : ℕ) (population : ℤ) : ℚ :=
  if 0 < population then ((count : ℚ) / (population : ℚ)) * 100000 else 0

/-- CoordinateFeatureCalculator.calculate_competitors_multi_radius: validate,
drop self-matches (distance ≤ 0.1), then for each radius report
`(radius, count, count per 100k population)`.  The populations used for
normalization are the ones calculate_population_multi_radius computes for
the same inputs. -/
def calculate_competitors_multi_radius (d : DistanceFn) (loader : MultiStateDataLoader)
    (state : String) (latitude longitude : ℚ) : Except FEError (List (ℚ × ℕ × ℚ)) := do
  let st := normalizeState state
  let _ ← validate_coordinates st latitude longitude
  let sd ← get_state_data loader st
  let far := (competitor_distances d (latitude, longitude) sd.1).filter
    (fun dm => decide ((0.1 : ℚ) < dm))
  .ok (RADII.map (fun r =>
    let count := (far.filter (fun dm => decide (dm ≤ r))).length
    let population := pop_within_radius d (latitude, longitude) sd.2 r
    (r, count, rate_per_100k count population)))

/-- CoordinateFeatureCalculator.calculate_competition_weighted: validate,
keep dispensaries with 0.1 < distance ≤ radius, return 0.0 when none remain
and otherwise Σ 1 / (distance + 0.01). -/
def calculate_competition_weighted (d : DistanceFn) (loader : MultiStateDataLoader)
    (state : String) (latitude longitude : ℚ) (radius : ℚ) : Except FEError ℚ := do
  let st := normalizeState state
  let _ ← validate_coordinates st latitude longitude
  let sd ← get_state_data loader st
  let within := (competitor_distances d (latitude, longitude) sd.1).filter
    (fun dm => decide ((0.1 : ℚ) < dm ∧ dm ≤ radius))
  if within.isEmpty then .ok 0
  else .ok ((within.map (fun dm => 1 / (dm + 0.01))).sum)

/-- A tract row joined against one circular buffer in the batch analyzer
(GeographicAnalyzer.calculate_area_weighted_population).  The shapely
geometry predicates feeding that function are recorded as data:
`intersects` is the sjoin predicate, `intersection_area` is
tract.geometry.intersection(buffer).area, `tract_area` is the precomputed
tract_area_sqm, and `population` is the merged B01001_001E value (missing
after the left merge is `none`, which the source treats as 0). -/
structure BufferTract where
  geoid : String
  population : Option ℚ
  intersects : Bool
  intersection_area : ℚ
  tract_area : ℚ
  deriving Repr, DecidableEq

/-- The weight of one tract: proportion of its area inside the buffer,
zero when the recorded tract area is not positive. -/
def tract_weight (t : BufferTract) : ℚ :=
  if 0 < t.tract_area then t.intersection_area / t.tract_area else 0

/-- GeographicAnalyzer.calculate_area_weighted_population: keep the
intersecting tracts, return 0 when none intersect, otherwise accumulate
tract_population × weight (the source's loop is written as map + sum). -/
def calculate_area_weighted_population (ts : List BufferTract) : ℚ :=
  let inter := ts.filter (fun t => t.intersects)
  if inter.isEmpty then 0
  else (inter.map (fun t => (t.population.getD 0) * tract_weight t)).sum

/-- The `all(populations[i] <= populations[i+1] ...)` monotonicity check of
GeographicAnalyzer.calculate_multi_radius_population. -/
def chain_nondecreasing : List ℚ → Bool
  | [] => true
  | [_] => true
  | a :: b :: rest => decide (a ≤ b) && chain_nondecreasing (b :: rest)

/-- Output of the batch analyzer: per-radius area-weighted populations plus
the flag of the non-monotonicity warning it logs. -/
structure MultiRadiusResult where
  pops : List (ℚ × ℚ)
  monotonic_warning : Bool
  deriving Repr, DecidableEq

/-- GeographicAnalyzer.calculate_multi_radius_population, with the buffer /
tract-intersection geometry per radius supplied as data.  A monotonicity
violation only sets the warning flag (the source logs it); the result is
returned either way, never an error. -/
def calculate_multi_radius_population (buffers : ℚ → List BufferTract) :
    Except FEError MultiRadiusResult :=
  let pops := RADII.map (fun r => (r, calculate_area_weighted_population (buffers r)))
  let is_monotonic := chain_nondecreasing (pops.map (fun p => p.2))
  .ok { pops := pops, monotonic_warning := !is_monotonic }

/-- Result of the Census geocoder as parsed by
CensusTractIdentifier._parse_geocoding_response (the tract identifiers are
collapsed to the 11-digit GEOID the pipeline uses). -/
structure GeocodeResult where
  success : Bool
  geoid : String
  deriving Repr, DecidableEq

/-- CensusTractIdentifier._make_cache_key rounds both coordinates to six
decimal places; the key is modelled as the rounded pair. -/
def round6 (q : ℚ) : ℚ := ((round (q * 1000000) : ℤ) : ℚ) / 1000000

/-- The geocoding cache key for a coordinate pair. -/
def make_cache_key (latitude longitude : ℚ) : ℚ × ℚ :=
  (round6 latitude, round6 longitude)

/-- The on-disk geocoding cache, keyed by rounded coordinate pair. -/
abbrev GeoCache := List ((ℚ × ℚ) × GeocodeResult)

/-- First cache entry for a key, if any. -/
def geo_cache_lookup (cache : GeoCache) (key : ℚ × ℚ) : Option GeocodeResult :=
  (cache.find? (fun e => decide (e.1 = key))).map (fun e => e.2)

/-- Outcome of one get_tract_from_coordinates invocation: the result, the
cache afterwards, and how many times the external geocoder was consulted
(the bounded retry loop over transient timeouts is folded into one
consultation of the external service). -/
structure GeoFetchOutcome where
  result : GeocodeResult
  cache : GeoCache
  network_calls : ℕ
  deriving Repr, DecidableEq

/-- CensusTractIdentifier.get_tract_from_coordinates: answer from the cache
when the rounded key is present (no network), otherwise consult the
external geocoder and cache the result exactly when it is successful. -/
def get_tract_from_coordinates (cache : GeoCache) (geocoder : ℚ × ℚ → GeocodeResult)
    (latitude longitude : ℚ) : GeoFetchOutcome :=
  let key := make_cache_key latitude longitude
  match geo_cache_lookup cache key with
  | some r => { result := r, cache := cache, network_calls := 0 }
  | none =>
    let r := geocoder (latitude, longitude)
    if r.success then { result := r, cache := (key, r) :: cache, network_calls := 1 }
    else { result := r, cache := cache, network_calls := 1 }

/-- Parsed ACS demographics for one tract
(ACSDataCollector.get_tract_demographics result dictionary; missing-value
codes have already been cleaned to `none`). -/
structure ACSResult where
  geoid : String
  success : Bool
  total_population : Option ℚ
  median_age : Option ℚ
  median_household_income : Option ℚ
  per_capita_income : Option ℚ
  total_pop_25_plus : Option ℚ
  bachelors_degree : Option ℚ
  masters_degree : Option ℚ
  professional_degree : Option ℚ
  doctorate_degree : Option ℚ
  data_complete : Bool
  deriving Repr, DecidableEq

/-- ACSDataCollector._create_empty_result: failure record with every
variable `None`. -/
def empty_acs_result (geoid : String) : ACSResult :=
  { geoid := geoid, success := false, total_population := none, median_age := none,
    median_household_income := none, per_capita_income := none,
    total_pop_25_plus := none, bachelors_degree := none, masters_degree := none,
    professional_degree := none, doctorate_degree := none, data_complete := false }

/-- The ACS demographic cache, keyed by 11-digit GEOID. -/
abbrev ACSCache := List (String × ACSResult)

/-- What the external ACS service returns for a GEOID: a parsed response, a
404 (tract absent from ACS), or unreachability after the bounded retries. -/
inductive ACSNetResponse where
  | parsed (r : ACSResult)
  | notFound
  | unavailable
  deriving Repr, DecidableEq

/-- Outcome of one get_tract_demographics invocation. -/
structure ACSFetchOutcome where
  result : ACSResult
  cache : ACSCache
  network_calls : ℕ
  deriving Repr, DecidableEq

/-- ACSDataCollector.get_tract_demographics: answer from the cache when the
GEOID is present (no network); otherwise consult the service, caching
successful parses and 404 empty results, but not transient failures. -/
def get_tract_demographics (cache : ACSCache) (net : String → ACSNetResponse)
    (state_fips county_fips tract_fips : String) : ACSFetchOutcome :=
  let geoid := state_fips ++ county_fips ++ tract_fips
  match (cache.find? (fun e => decide (e.1 = geoid))) with
  | some e => { result := e.2, cache := cache, network_calls := 0 }
  | none =>
    match net geoid with
    | .parsed r =>
      if r.success then { result := r, cache := (geoid, r) :: cache, network_calls := 1 }
      else { result := r, cache := cache, network_calls := 1 }
    | .notFound =>
      let r := empty_acs_result geoid
      { result := r, cache := (geoid, r) :: cache, network_calls := 1 }
    | .unavailable =>
      { result := empty_acs_result geoid, cache := cache, network_calls := 1 }

/-- A tract centroid/area entry of the Gazetteer reference table as
returned by CoordinateFeatureCalculator._get_tract_centroid. -/
structure TractCentroid where
  latitude : ℚ
  longitude : ℚ
  area_sqm : ℚ
  deriving Repr, DecidableEq

/-- Tract construction of CoordinateFeatureCalculator._fetch_missing_tract:
`None` when the ACS fetch was unsuccessful or no Gazetteer centroid exists;
otherwise a CensusTract built with _safe_int/_safe_float defaults of 0 and
a density computed only when both area and population are positive. -/
def fetch_missing_tract (geoid : String) (acs : ACSResult)
    (centroid : Option TractCentroid) : Option CensusTract :=
  if !acs.success then none
  else
    match centroid with
    | none => none
    | some c =>
      let pop : ℤ := safe_int acs.total_population 0
      let area : ℚ := safe_float (some c.area_sqm) 0
      let density : ℚ :=
        if 0 < area ∧ 0 < (pop : ℚ) then (pop : ℚ) / (area / SQ_METERS_PER_SQ_MILE) else 0
      some
        { census_geoid := geoid
          total_population := (pop : ℚ)
          median_age := safe_float acs.median_age 0
          median_household_income := safe_float acs.median_household_income 0
          per_capita_income := safe_float acs.per_capita_income 0
          total_pop_25_plus := ((safe_int acs.total_pop_25_plus 0 : ℤ) : ℚ)
          bachelors_degree := ((safe_int acs.bachelors_degree 0 : ℤ) : ℚ)
          masters_degree := ((safe_int acs.masters_degree 0 : ℤ) : ℚ)
          professional_degree := ((safe_int acs.professional_degree 0 : ℤ) : ℚ)
          doctorate_degree := ((safe_int acs.doctorate_degree 0 : ℤ) : ℚ)
          latitude := c.latitude
          longitude := c.longitude
          tract_area_sqm := area
          population_density := density
          census_data_complete := acs.data_complete }

/-- The side effect of _fetch_missing_tract on the loader: the new tract is
appended to the census table of its state. -/
def fetch_missing_tract_update (geoid : String) (state : String) (acs : ACSResult)
    (centroid : Option TractCentroid) (loader : MultiStateDataLoader) :
    Option CensusTract × MultiStateDataLoader :=
  match fetch_missing_tract geoid acs centroid with
  | none => (none, loader)
  | some t =>
    let s := normalizeState state
    let loader' :=
      if s = "FL" then { loader with fl_census := loader.fl_census ++ [t] }
      else if s = "PA" then { loader with pa_census := loader.pa_census ++ [t] }
      else loader
    (some t, loader')

/-- The demographic record match_census_tract returns. -/
structure Demographics where
  census_geoid : String
  median_age : ℚ
  median_household_income : ℚ
  per_capita_income : ℚ
  population_density : ℚ
  tract_area_sqm : ℚ
  total_population : ℤ
  total_pop_25_plus : ℤ
  bachelors_degree : ℤ
  masters_degree : ℤ
  professional_degree : ℤ
  doctorate_degree : ℤ
  deriving Repr, DecidableEq

/-- The extraction dictionary at the end of match_census_tract: every field
goes through _safe_float / _safe_int with default 0. -/
def extract_demographics (geoid : String) (t : CensusTract) : Demographics :=
  { census_geoid := geoid
    median_age := safe_float (some t.median_age) 0
    median_household_income := safe_float (some t.median_household_income) 0
    per_capita_income := safe_float (some t.per_capita_income) 0
    population_density := safe_float (some t.population_density) 0
    tract_area_sqm := safe_float (some t.tract_area_sqm) 0
    total_population := safe_int (some t.total_population) 0
    total_pop_25_plus := safe_int (some t.total_pop_25_plus) 0
    bachelors_degree := safe_int (some t.bachelors_degree) 0
    masters_degree := safe_int (some t.masters_degree) 0
    professional_degree := safe_int (some t.professional_degree) 0
    doctorate_degree := safe_int (some t.doctorate_degree) 0 }

/-- CoordinateFeatureCalculator.match_census_tract: validate, fail when the
geocoder found no tract, answer from the loaded census table on a hit, and
otherwise fetch on demand (failing when no ACS key is configured or the
fetch returns nothing).  The possibly-enlarged loader is returned with the
demographics. -/
def match_census_tract (tract_info : GeocodeResult) (acs_available : Bool)
    (acs : ACSResult) (centroid : Option TractCentroid)
    (loader : MultiStateDataLoader) (state : String) (latitude longitude : ℚ) :
    Except FEError (Demographics × MultiStateDataLoader) := do
  let st := normalizeState state
  let _ ← validate_coordinates st latitude longitude
  if !tract_info.success then .error .dataNotFound
  else
    let geoid := tract_info.geoid
    let sd ← get_state_data loader st
    match sd.2.find? (fun t => decide (t.census_geoid = geoid)) with
    | some t => .ok (extract_demographics geoid t, loader)
    | none =>
      if !acs_available then .error .dataNotFound
      else
        match fetch_missing_tract_update geoid st acs centroid loader with
        | (none, _) => .error .dataNotFound
        | (some t, loader') => .ok (extract_demographics geoid t, loader')

/-- CoordinateFeatureCalculator.STATE_MEDIAN_SQ_FT (the dictionary is only
consulted for the two supported states). -/
def STATE_MEDIAN_SQ_FT (state : String) : ℚ :=
  if state = "FL" then 3500 else if state = "PA" then 4000 else 0

/-- The 23-base-feature record assembled by calculate_all_features. -/
structure FeatureRecord where
  state : String
  latitude : ℚ
  longitude : ℚ
  sq_ft : ℚ
  populations : List (ℚ × ℤ)
  competitors : List (ℚ × ℕ × ℚ)
  competition_weighted_20mi : ℚ
  demographics : Demographics
  deriving Repr, DecidableEq

/-- CoordinateFeatureCalculator.calculate_all_features: reject unsupported
states, validate coordinates, match the census tract first (possibly
growing the loader's census table), then compute population, competition
and weighted-competition features against the updated loader, defaulting
square footage to the state median when omitted. -/
def calculate_all_features (d : DistanceFn) (tract_info : GeocodeResult)
    (acs_available : Bool) (acs : ACSResult) (centroid : Option TractCentroid)
    (loader : MultiStateDataLoader) (state : String) (latitude longitude : ℚ)
    (sq_ft : Option ℚ) : Except FEError FeatureRecord := do
  let st := normalizeState state
  if ¬ (st ∈ SUPPORTED_STATES) then .error .invalidState
  else do
    let _ ← validate_coordinates st latitude longitude
    let dm ← match_census_tract tract_info acs_available acs centroid loader st latitude longitude
    let populations ← calculate_population_multi_radius d dm.2 st latitude longitude
    let competitors ← calculate_competitors_multi_radius d dm.2 st latitude longitude
    let weighted ← calculate_competition_weighted d dm.2 st latitude longitude 20
    let sqft := match sq_ft with
      | none => STATE_MEDIAN_SQ_FT st
      | some s => s
    .ok { state := st, latitude := latitude, longitude := longitude, sq_ft := sqft,
          populations := populations, competitors := competitors,
          competition_weighted_20mi := weighted, demographics := dm.1 }

/-- One row of the statewide demographic extract as read from
all_tracts_demographics.csv, before the load-time filter (a missing
total_population cell is `none`). -/
structure RawCensusRow where
  census_geoid : String
  total_population : Option ℚ
  median_age : ℚ
  median_household_income : ℚ
  per_capita_income : ℚ
  total_pop_25_plus : ℚ
  bachelors_degree : ℚ
  masters_degree : ℚ
  professional_degree : ℚ
  doctorate_degree : ℚ
  latitude : ℚ
  longitude : ℚ
  tract_area_sqm : ℚ
  census_data_complete : Bool
  deriving Repr, DecidableEq

/-- The load-time policy of MultiStateDataLoader.load_census_data: drop
tracts with missing or non-positive population, then compute the
population density column. -/
def load_census_rows (rows : List RawCensusRow) : List CensusTract :=
  (rows.filter (fun r =>
    match r.total_population with
    | some p => decide (0 < p)
    | none => false)).map (fun r =>
      let pop := r.total_population.getD 0
      { census_geoid := r.census_geoid
        total_population := pop
        median_age := r.median_age
        median_household_income := r.median_household_income
        per_capita_income := r.per_capita_income
        total_pop_25_plus := r.total_pop_25_plus
        bachelors_degree := r.bachelors_degree
        masters_degree := r.masters_degree
        professional_degree := r.professional_degree
        doctorate_degree := r.doctorate_degree
        latitude := r.latitude
        longitude := r.longitude
        tract_area_sqm := r.tract_area_sqm
        population_density := pop / (r.tract_area_sqm / SQ_METERS_PER_SQ_MILE)
        census_data_complete := r.census_data_complete })

/-! ### Helper lemmas -/

theorem pyInt_mono_of_nonneg {q1 q2 : ℚ} (h0 : 0 ≤ q1) (h : q1 ≤ q2) :
    pyInt q1 ≤ pyInt q2 := by
  unfold pyInt
  rw [if_pos h0, if_pos (le_trans h0 h)]
  exact Int.floor_mono h

theorem sum_filter_radius_mono (l : List (CensusTract × ℚ)) (r1 r2 : ℚ) (h : r1 ≤ r2)
    (hpos : ∀ p ∈ l, 0 ≤ p.1.total_population) :
    ((l.filter (fun p => decide (p.2 ≤ r1))).map (fun p => p.1.total_population)).sum ≤
      ((l.filter (fun p => decide (p.2 ≤ r2))).map (fun p => p.1.total_population)).sum := by
  induction l with
  | nil => simp
  | cons a l ih =>
    have ih' := ih (fun p hp => hpos p (List.mem_cons_of_mem a hp))
    have ha : 0 ≤ a.1.total_population := hpos a (List.mem_cons_self a l)
    by_cases h1 : a.2 ≤ r1
    · have h2 : a.2 ≤ r2 := le_trans h1 h
      rw [List.filter_cons, List.filter_cons, if_pos (decide_eq_true h1),
        if_pos (decide_eq_true h2)]
      simp only [List.map_cons, List.sum_cons]
      linarith
    · rw [List.filter_cons, List.filter_cons, if_neg (by simpa using h1)]
      by_cases h2 : a.2 ≤ r2
      · rw [if_pos (decide_eq_true h2)]
        simp only [List.map_cons, List.sum_cons]
        linarith
      · rw [if_neg (by simpa using h2)]
        exact ih'

theorem pop_sum_nonneg (d : DistanceFn) (center : ℚ × ℚ) (census : List CensusTract)
    (r : ℚ) (hpos : ∀ t ∈ census, 0 ≤ t.total_population) :
    0 ≤ (((tract_distances d center census).filter
      (fun p => decide (p.2 ≤ r))).map (fun p => p.1.total_population)).sum := by
  apply List.sum_nonneg
  intro x hx
  obtain ⟨p, hp, rfl⟩ := List.mem_map.mp hx
  have hpl := List.mem_of_mem_filter hp
  obtain ⟨t, ht, rfl⟩ := List.mem_map.mp hpl
  exact hpos t ht

theorem pop_within_radius_mono (d : DistanceFn) (center : ℚ × ℚ)
    (census : List CensusTract) (hpos : ∀ t ∈ census, 0 ≤ t.total_population)
    {r1 r2 : ℚ} (h : r1 ≤ r2) :
    pop_within_radius d center census r1 ≤ pop_within_radius d center census r2 := by
  unfold pop_within_radius
  have hl : ∀ p ∈ tract_distances d center census, 0 ≤ p.1.total_population := by
    intro p hp
    obtain ⟨t, ht, rfl⟩ := List.mem_map.mp hp
    exact hpos t ht
  exact pyInt_mono_of_nonneg (pop_sum_nonneg d center census r1 hpos)
    (sum_filter_radius_mono _ r1 r2 h hl)

/-- pop_within_radius written directly over the census table: the floored
sum of the full populations of the tracts whose centroid distance is within
the radius. -/
theorem pop_within_radius_eq (d : DistanceFn) (center : ℚ × ℚ)
    (census : List CensusTract) (r : ℚ) :
    pop_within_radius d center census r =
      pyInt (((census.filter (fun t => decide (d center (t.latitude, t.longitude) ≤ r))).map
        (fun t => t.total_population)).sum) := by
  unfold pop_within_radius tract_distances
  rw [List.filter_map, List.map_map]
  rfl

/-! ### C8: competitors-per-100k rate -/

/-- C8: the per-100k competitor rate is never negative, is exactly 0 for a
non-positive population, and for a positive population satisfies
rate × population = count × 100000 (the division-form of
`count / population * 100000`, with a provably non-zero denominator). -/
theorem rate_per_100k_spec (count : ℕ) (population : ℤ) :
    0 ≤ rate_per_100k count population
    ∧ (population ≤ 0 → rate_per_100k count population = 0)
    ∧ (0 < population →
        rate_per_100k count population * (population : ℚ) = (count : ℚ) * 100000) := by
  unfold rate_per_100k
  refine ⟨?_, ?_, ?_⟩
  · by_cases h : 0 < population
    · rw [if_pos h]
      have hp : (0 : ℚ) < (population : ℚ) := by exact_mod_cast h
      positivity
    · rw [if_neg h]
  · intro h
    rw [if_neg (by omega)]
  · intro h
    rw [if_pos h]
    have hp : ((population : ℚ)) ≠ 0 := by
      have : (0 : ℚ) < (population : ℚ) := by exact_mod_cast h
      exact ne_of_gt this
    field_simp

/-- C8 witness: population 0 yields rate 0 with no error. -/
theorem rate_per_100k_spec_witness : rate_per_100k 7 0 = 0 :=
  (rate_per_100k_spec 7 0).2.1 (le_refl 0)

/-! ### C7: distance-weighted competition score -/

/-- C7: the weighted competition score equals Σ 1/(distance + 0.01) over the
facilities with 0.1 < distance ≤ radius, is 0 for an empty facility list,
is never negative, and every summed facility has a strictly positive
denominator distance + 0.01. -/
theorem weighted_competition_spec (d : DistanceFn) (loader : MultiStateDataLoader)
    (state : String) (latitude longitude radius : ℚ)
    (disps : List Dispensary) (census : List CensusTract)
    (hval : validate_coordinates (normalizeState state) latitude longitude = Except.ok ())
    (hsd : get_state_data loader (normalizeState state) = Except.ok (disps, census)) :
    calculate_competition_weighted d loader state latitude longitude radius =
      .ok ((((competitor_distances d (latitude, longitude) disps).filter
        (fun dm => decide ((0.1 : ℚ) < dm ∧ dm ≤ radius))).map
          (fun dm => 1 / (dm + 0.01))).sum)
    ∧ (disps = [] →
        calculate_competition_weighted d loader state latitude longitude radius = .ok 0)
    ∧ (∀ s : ℚ,
        calculate_competition_weighted d loader state latitude longitude radius = .ok s →
        0 ≤ s)
    ∧ (∀ dm ∈ (competitor_distances d (latitude, longitude) disps).filter
        (fun dm => decide ((0.1 : ℚ) < dm ∧ dm ≤ radius)), 0 < dm + 0.01) := by
  have hpos : ∀ dm ∈ (competitor_distances d (latitude, longitude) disps).filter
      (fun dm => decide ((0.1 : ℚ) < dm ∧ dm ≤ radius)), 0 < dm + 0.01 := by
    intro dm hdm
    have h : (0.1 : ℚ) < dm ∧ dm ≤ radius := by
      simpa using (List.mem_filter.mp hdm).2
    linarith [h.1]
  have hsum : 0 ≤ (((competitor_distances d (latitude, longitude) disps).filter
      (fun dm => decide ((0.1 : ℚ) < dm ∧ dm ≤ radius))).map
        (fun dm => 1 / (dm + 0.01))).sum := by
    apply List.sum_nonneg
    intro x hx
    obtain ⟨dm, hdm, rfl⟩ := List.mem_map.mp hx
    have := hpos dm hdm
    positivity
  have hrun : calculate_competition_weighted d loader state latitude longitude radius =
      .ok ((((competitor_distances d (latitude, longitude) disps).filter
        (fun dm => decide ((0.1 : ℚ) < dm ∧ dm ≤ radius))).map
          (fun dm => 1 / (dm + 0.01))).sum) := by
    simp only [calculate_competition_weighted]
    rw [hval, hsd]
    show (if ((competitor_distances d (latitude, longitude) disps).filter
        (fun dm => decide ((0.1 : ℚ) < dm ∧ dm ≤ radius))).isEmpty then
          (Except.ok 0 : Except FEError ℚ)
        else .ok ((((competitor_distances d (latitude, longitude) disps).filter
          (fun dm => decide ((0.1 : ℚ) < dm ∧ dm ≤ radius))).map
            (fun dm => 1 / (dm + 0.01))).sum)) =
      .ok ((((competitor_distances d (latitude, longitude) disps).filter
        (fun dm => decide ((0.1 : ℚ) < dm ∧ dm ≤ radius))).map
          (fun dm => 1 / (dm + 0.01))).sum)
    by_cases hw : ((competitor_distances d (latitude, longitude) disps).filter
        (fun dm => decide ((0.1 : ℚ) < dm ∧ dm ≤ radius))).isEmpty
    · rw [if_pos hw]
      rw [List.isEmpty_iff] at hw
      rw [hw]
      rfl
    · rw [if_neg hw]
  refine ⟨hrun, ?_, ?_, hpos⟩
  · intro hnil
    rw [hrun, hnil]
    rfl
  · intro s hs
    rw [hrun] at hs
    injection hs with h
    rw [← h]
    exact hsum

/-- Squared-difference stand-in for the external geodesic distance, used to
evaluate the pipeline on concrete witness data (69 × the squared coordinate
differences; non-negative and zero exactly at the same point). -/
def dQuad : DistanceFn := fun a b => 69 * ((a.1 - b.1) ^ 2 + (a.2 - b.2) ^ 2)

/-- Concrete dispensary 6.9 model-miles east of the witness query point. -/
def dispA : Dispensary := { name := "A", latitude := 28, longitude := -80.9 }

/-- Concrete loader with one Florida dispensary and no census rows. -/
def loaderW : MultiStateDataLoader :=
  { fl_dispensaries := [dispA], pa_dispensaries := [], fl_census := [], pa_census := [] }

/-- C7 witness: the weighted score at a concrete Florida query. -/
theorem weighted_competition_spec_witness :
    calculate_competition_weighted dQuad loaderW "FL" 28 (-81) 20 =
      .ok ((((competitor_distances dQuad (28, -81) [dispA]).filter
        (fun dm => decide ((0.1 : ℚ) < dm ∧ dm ≤ 20))).map
          (fun dm => 1 / (dm + 0.01))).sum) :=
  (weighted_competition_spec dQuad loaderW "FL" 28 (-81) 20 [dispA] []
    (by
      have hn : normalizeState "FL" = "FL" := rfl
      norm_num [validate_coordinates, get_state_bounds, hn, FL_BOUNDS])
    (by rfl)).1

/-! ### C6: self-exclusion and the counting rule -/

theorem except_ok_bind {ε α β : Type} (a : α) (f : α → Except ε β) :
    (Except.ok a >>= f : Except ε β) = f a := rfl

theorem filter_close_cons (d : DistanceFn) (center : ℚ × ℚ) (f : Dispensary)
    (disps : List Dispensary) (p : ℚ → Prop) [DecidablePred p]
    (hclose : ¬ p (d center (f.latitude, f.longitude))) :
    (competitor_distances d center (f :: disps)).filter (fun dm => decide (p dm)) =
      (competitor_distances d center disps).filter (fun dm => decide (p dm)) := by
  simp only [competitor_distances, List.map_cons, List.filter_cons]
  rw [if_neg (by simpa using hclose)]

/-- C6: a facility is counted at radius r exactly when its distance dm
satisfies 0.1 < dm ≤ r (the staged self-exclusion filter composed with the
radius filter), and a facility at distance ≤ 0.1 of the query point — in
particular one at the exact query coordinate — changes neither the
competitor counts at any radius nor the weighted competition score. -/
theorem competitor_exclusion_spec (d : DistanceFn) (loader loader' : MultiStateDataLoader)
    (state : String) (latitude longitude : ℚ) (f : Dispensary)
    (disps : List Dispensary) (census : List CensusTract)
    (hval : validate_coordinates (normalizeState state) latitude longitude = Except.ok ())
    (hsd : get_state_data loader (normalizeState state) = Except.ok (disps, census))
    (hsd' : get_state_data loader' (normalizeState state) = Except.ok (f :: disps, census))
    (hclose : d (latitude, longitude) (f.latitude, f.longitude) ≤ 0.1) :
    calculate_competitors_multi_radius d loader state latitude longitude =
      .ok (RADII.map (fun r =>
        (r, ((competitor_distances d (latitude, longitude) disps).filter
              (fun dm => decide ((0.1 : ℚ) < dm ∧ dm ≤ r))).length,
          rate_per_100k
            ((competitor_distances d (latitude, longitude) disps).filter
              (fun dm => decide ((0.1 : ℚ) < dm ∧ dm ≤ r))).length
            (pop_within_radius d (latitude, longitude) census r))))
    ∧ calculate_competitors_multi_radius d loader' state latitude longitude =
        calculate_competitors_multi_radius d loader state latitude longitude
    ∧ (∀ radius : ℚ,
        calculate_competition_weighted d loader' state latitude longitude radius =
          calculate_competition_weighted d loader state latitude longitude radius) := by
  have hfilter : ∀ (l : List ℚ) (r : ℚ),
      (l.filter (fun dm => decide ((0.1 : ℚ) < dm))).filter (fun dm => decide (dm ≤ r)) =
        l.filter (fun dm => decide ((0.1 : ℚ) < dm ∧ dm ≤ r)) := by
    intro l r
    rw [List.filter_filter]
    congr 1
    funext dm
    by_cases h1 : (0.1 : ℚ) < dm <;> by_cases h2 : dm ≤ r <;> simp [h1, h2]
  have hnotlt : ¬ ((0.1 : ℚ) < d (latitude, longitude) (f.latitude, f.longitude)) :=
    not_lt.mpr hclose
  refine ⟨?_, ?_, ?_⟩
  · simp only [calculate_competitors_multi_radius]
    rw [hval, hsd, except_ok_bind, except_ok_bind]
    simp only [hfilter]
  · simp only [calculate_competitors_multi_radius]
    rw [hval, hsd, hsd', except_ok_bind, except_ok_bind, except_ok_bind, except_ok_bind]
    rw [filter_close_cons d (latitude, longitude) f disps (fun dm => (0.1 : ℚ) < dm) hnotlt]
  · intro radius
    simp only [calculate_competition_weighted]
    rw [hval, hsd, hsd', except_ok_bind, except_ok_bind, except_ok_bind, except_ok_bind]
    rw [filter_close_cons d (latitude, longitude) f disps
      (fun dm => (0.1 : ℚ) < dm ∧ dm ≤ radius) (fun hc => hnotlt hc.1)]

/-- Concrete dispensary at the exact witness query coordinate. -/
def dispSelf : Dispensary := { name := "Self", latitude := 28, longitude := -81 }

/-- Concrete loader equal to loaderW with dispSelf prepended. -/
def loaderW' : MultiStateDataLoader :=
  { fl_dispensaries := [dispSelf, dispA], pa_dispensaries := [], fl_census := [],
    pa_census := [] }

/-- C6 witness: a facility at the exact query coordinate leaves the
competitor counts unchanged at a concrete Florida query. -/
theorem competitor_exclusion_spec_witness :
    calculate_competitors_multi_radius dQuad loaderW' "FL" 28 (-81) =
      calculate_competitors_multi_radius dQuad loaderW "FL" 28 (-81) :=
  (competitor_exclusion_spec dQuad loaderW loaderW' "FL" 28 (-81) dispSelf [dispA] []
    (by
      have hn : normalizeState "FL" = "FL" := rfl
      norm_num [validate_coordinates, get_state_bounds, hn, FL_BOUNDS])
    (by rfl) (by rfl)
    (by norm_num [dQuad, dispSelf])).2.1

/-! ### C2: monotonicity across radii, warning not error -/

/-- C2: with a non-negative-population census table, the populations that
calculate_population_multi_radius reports at the configured radii
1, 3, 5, 10, 20 form a non-decreasing chain; and the batch analyzer's
multi-radius computation always returns a result (never an error), with
its warning flag set exactly when the chain check fails. -/
theorem population_monotonic_spec (d : DistanceFn) (loader : MultiStateDataLoader)
    (state : String) (latitude longitude : ℚ)
    (disps : List Dispensary) (census : List CensusTract)
    (hval : validate_coordinates (normalizeState state) latitude longitude = Except.ok ())
    (hsd : get_state_data loader (normalizeState state) = Except.ok (disps, census))
    (hpos : ∀ t ∈ census, 0 ≤ t.total_population) :
    (∃ pops, calculate_population_multi_radius d loader state latitude longitude = .ok pops
      ∧ chain_nondecreasing (pops.map (fun p => ((p.2 : ℚ)))) = true)
    ∧ (∀ buffers : ℚ → List BufferTract, ∃ out,
        calculate_multi_radius_population buffers = .ok out
        ∧ (out.monotonic_warning = true ↔
            chain_nondecreasing (out.pops.map (fun p => p.2)) = false)) := by
  constructor
  · refine ⟨RADII.map (fun r => (r, pop_within_radius d (latitude, longitude) census r)),
      ?_, ?_⟩
    · simp only [calculate_population_multi_radius]
      rw [hval, hsd, except_ok_bind, except_ok_bind]
    · have mono : ∀ r1 r2 : ℚ, r1 ≤ r2 →
          ((pop_within_radius d (latitude, longitude) census r1 : ℤ) : ℚ) ≤
            ((pop_within_radius d (latitude, longitude) census r2 : ℤ) : ℚ) := by
        intro r1 r2 h
        exact_mod_cast pop_within_radius_mono d (latitude, longitude) census hpos h
      simp only [RADII, List.map_cons, List.map_nil, chain_nondecreasing,
        Bool.and_eq_true, decide_eq_true_eq]
      exact ⟨mono 1 3 (by norm_num), mono 3 5 (by norm_num), mono 5 10 (by norm_num),
        mono 10 20 (by norm_num), trivial⟩
  · intro buffers
    refine ⟨_, rfl, ?_⟩
    simp [calculate_multi_radius_population]

/-- A concrete census table with two positive-population Florida tracts. -/
def tractNear : CensusTract :=
  { census_geoid := "12095000100", total_population := 1000, median_age := 35,
    median_household_income := 60000, per_capita_income := 30000,
    total_pop_25_plus := 700, bachelors_degree := 200, masters_degree := 80,
    professional_degree := 20, doctorate_degree := 10, latitude := 28,
    longitude := -81, tract_area_sqm := 2000000, population_density := 1295,
    census_data_complete := true }

/-- A second concrete tract, 6.9 model-miles away from the query point. -/
def tractFar : CensusTract :=
  { tractNear with
    census_geoid := "12095000200"
    total_population := 500
    longitude := -80.9 }

/-- Concrete loader with two Florida census tracts and no dispensaries. -/
def loaderC2 : MultiStateDataLoader :=
  { fl_dispensaries := [], pa_dispensaries := [], fl_census := [tractNear, tractFar],
    pa_census := [] }

/-- C2 witness: the monotone chain at a concrete Florida query. -/
theorem population_monotonic_spec_witness :
    ∃ pops, calculate_population_multi_radius dQuad loaderC2 "FL" 28 (-81) = .ok pops
      ∧ chain_nondecreasing (pops.map (fun p => ((p.2 : ℤ) : ℚ))) = true :=
  (population_monotonic_spec dQuad loaderC2 "FL" 28 (-81) [] [tractNear, tractFar]
    (by
      have hn : normalizeState "FL" = "FL" := rfl
      norm_num [validate_coordinates, get_state_bounds, hn, FL_BOUNDS])
    (by rfl)
    (by
      intro t ht
      simp only [List.mem_cons, List.not_mem_nil, or_false] at ht
      rcases ht with rfl | rfl <;> norm_num [tractNear, tractFar])).1

/-! ### C1: area-weighting vs centroid inclusion -/

/-- C1 (amended): the batch analyzer computes the area-weighted sum
Σ tract_pop × intersection_area / tract_area, and in particular two equal
tracts of population P each covered to exactly 50% contribute P in total;
the coordinate pipeline, however, reports for each radius the truncated sum
of the full populations of the tracts whose centroid lies within the
radius, not an area-weighted sum. -/
theorem area_weighted_vs_centroid_spec (gA gB : String) (P A : ℚ) (hA : 0 < A)
    (d : DistanceFn) (loader : MultiStateDataLoader) (state : String)
    (latitude longitude : ℚ) (disps : List Dispensary) (census : List CensusTract)
    (hval : validate_coordinates (normalizeState state) latitude longitude = Except.ok ())
    (hsd : get_state_data loader (normalizeState state) = Except.ok (disps, census)) :
    (∀ ts : List BufferTract, calculate_area_weighted_population ts =
      ((ts.filter (fun t => t.intersects)).map
        (fun t => t.population.getD 0 * tract_weight t)).sum)
    ∧ calculate_area_weighted_population
        [⟨gA, some P, true, A / 2, A⟩, ⟨gB, some P, true, A / 2, A⟩] = P
    ∧ calculate_population_multi_radius d loader state latitude longitude =
        .ok (RADII.map (fun r => (r, pyInt (((census.filter (fun t =>
          decide (d (latitude, longitude) (t.latitude, t.longitude) ≤ r))).map
            (fun t => t.total_population)).sum)))) := by
  have hform : ∀ ts : List BufferTract, calculate_area_weighted_population ts =
      ((ts.filter (fun t => t.intersects)).map
        (fun t => t.population.getD 0 * tract_weight t)).sum := by
    intro ts
    simp only [calculate_area_weighted_population]
    by_cases h : (ts.filter (fun t => t.intersects)).isEmpty
    · rw [if_pos h, List.isEmpty_iff.mp h]
      simp
    · rw [if_neg h]
  refine ⟨hform, ?_, ?_⟩
  · rw [hform]
    have hAne : A ≠ 0 := ne_of_gt hA
    simp only [List.filter_cons, List.filter_nil, eq_self_iff_true, if_true, List.map_cons,
      List.map_nil, List.sum_cons, List.sum_nil, Option.getD_some, tract_weight, hA,
      add_zero]
    field_simp
    ring
  · simp only [calculate_population_multi_radius]
    rw [hval, hsd, except_ok_bind, except_ok_bind]
    simp only [pop_within_radius_eq]

/-- C1 amended-claim witness: the 50% two-tract scenario with P = 1000 and
tract area 2 yields exactly 1000. -/
theorem area_weighted_vs_centroid_spec_witness :
    calculate_area_weighted_population
      [⟨"12095000301", some 1000, true, 2 / 2, 2⟩,
       ⟨"12095000302", some 1000, true, 2 / 2, 2⟩] = 1000 :=
  (area_weighted_vs_centroid_spec "12095000301" "12095000302" 1000 2 (by norm_num)
    dQuad loaderC2 "FL" 28 (-81) [] [tractNear, tractFar]
    (by
      have hn : normalizeState "FL" = "FL" := rfl
      norm_num [validate_coordinates, get_state_bounds, hn, FL_BOUNDS])
    (by rfl)).2.1

/-- The two adjacent equal tracts of the no-double-counting scenario, with
centroids 0.69 and 0.0069 model-miles from the query point. -/
def tractC1a : CensusTract :=
  { tractNear with
    census_geoid := "12095000301"
    longitude := -81.01 }

/-- Second scenario tract, the mirror image of the first. -/
def tractC1b : CensusTract :=
  { tractNear with
    census_geoid := "12095000302"
    longitude := -80.99 }

/-- Loader for the counterexample: both scenario tracts in the FL table. -/
def loaderC1 : MultiStateDataLoader :=
  { fl_dispensaries := [], pa_dispensaries := [], fl_census := [tractC1a, tractC1b],
    pa_census := [] }

/-- The same two tracts joined against a buffer covering exactly half of
each tract's area. -/
def bufC1 : List BufferTract :=
  [⟨"12095000301", some 1000, true, 1, 2⟩, ⟨"12095000302", some 1000, true, 1, 2⟩]

/-- C1 counterexample: with both tract centroids inside every radius and
the buffer covering 50% of each tract, the pipeline reports 2000 at every
radius while the area-weighted sum of the same scenario is 1000. -/
theorem population_not_area_weighted_cex :
    calculate_population_multi_radius dQuad loaderC1 "FL" 28 (-81) =
      .ok [(1, 2000), (3, 2000), (5, 2000), (10, 2000), (20, 2000)]
    ∧ calculate_area_weighted_population bufC1 = 1000
    ∧ (2000 : ℚ) ≠ 1000 := by
  refine ⟨?_, ?_, by norm_num⟩
  · have hn : normalizeState "FL" = "FL" := rfl
    norm_num [calculate_population_multi_radius, validate_coordinates, get_state_bounds,
      hn, FL_BOUNDS, get_state_data, loaderC1, RADII, pop_within_radius, tract_distances,
      dQuad, tractC1a, tractC1b, tractNear, pyInt, List.filter_cons, except_ok_bind,
      Int.floor_eq_iff]
  · norm_num [calculate_area_weighted_population, bufC1, tract_weight, List.filter_cons]

/-! ### C3: zero substitution for a missing demographic attribute -/

/-- Concrete geocoder result naming a tract absent from loaderC2. -/
def geoC3 : GeocodeResult := { success := true, geoid := "12095990000" }

/-- Concrete ACS response: successful, but median_age is missing (`None`). -/
def acsC3 : ACSResult :=
  { geoid := "12095990000"
    success := true
    total_population := some 4000
    median_age := none
    median_household_income := some 60000
    per_capita_income := some 30000
    total_pop_25_plus := some 2500
    bachelors_degree := some 800
    masters_degree := some 300
    professional_degree := some 60
    doctorate_degree := some 40
    data_complete := false }

/-- Concrete Gazetteer centroid for the fetched tract. -/
def centC3 : TractCentroid := { latitude := 28, longitude := -81, area_sqm := 2000000 }

/-- C3 (code bug): for a home tract fetched on demand whose provider
reported median_age as missing, match_census_tract returns a successful
record in which median_age has been substituted with 0 — it does not
surface an error, contradicting the stated no-fallback principle. -/
theorem missing_demographic_zero_substitution :
    (match_census_tract geoC3 true acsC3 (some centC3) loaderC2 "FL" 28 (-81)).map
      (fun out => out.1.median_age) = .ok 0 := by
  have hn : normalizeState "FL" = "FL" := rfl
  have hfind : List.find? (fun t => decide (t.census_geoid = "12095990000"))
      [tractNear, tractFar] = none := by decide
  norm_num [match_census_tract, validate_coordinates, get_state_bounds, hn, FL_BOUNDS,
    get_state_data, loaderC2, hfind, fetch_missing_tract_update,
    fetch_missing_tract, acsC3, geoC3, centC3, safe_float, safe_int,
    extract_demographics, except_ok_bind, Except.map]

/-! ### C4: missing-tract propagation as a not-found error -/

theorem except_error_bind {ε α β : Type} (e : ε) (f : α → Except ε β) :
    (Except.error e >>= f : Except ε β) = .error e := rfl

/-- C4: when the resolved GEOID is absent from the loaded census table and
the demographic provider returns no data (or no Gazetteer centroid
exists), the whole base-feature calculation fails with the data-not-found
error and returns no record. -/
theorem missing_tract_error_spec (d : DistanceFn) (tract_info : GeocodeResult)
    (acs : ACSResult) (centroid : Option TractCentroid) (loader : MultiStateDataLoader)
    (state : String) (latitude longitude : ℚ) (sq_ft : Option ℚ)
    (disps : List Dispensary) (census : List CensusTract)
    (hst : normalizeState state ∈ SUPPORTED_STATES)
    (hval : validate_coordinates (normalizeState state) latitude longitude = Except.ok ())
    (hsucc : tract_info.success = true)
    (hsd : get_state_data loader (normalizeState state) = Except.ok (disps, census))
    (hmiss : census.find? (fun t => decide (t.census_geoid = tract_info.geoid)) = none)
    (hfail : acs.success = false ∨ centroid = none) :
    calculate_all_features d tract_info true acs centroid loader state latitude longitude
      sq_ft = .error .dataNotFound := by
  have hfetch : fetch_missing_tract tract_info.geoid acs centroid = none := by
    rcases hfail with h | h
    · simp [fetch_missing_tract, h]
    · subst h
      cases hsucc2 : acs.success <;> simp [fetch_missing_tract, hsucc2]
  have hmem : normalizeState state = "FL" ∨ normalizeState state = "PA" := by
    simpa [SUPPORTED_STATES] using hst
  have hnFL : normalizeState "FL" = "FL" := rfl
  have hnPA : normalizeState "PA" = "PA" := rfl
  have hmatch : match_census_tract tract_info true acs centroid loader
      (normalizeState state) latitude longitude = .error .dataNotFound := by
    rcases hmem with hs | hs <;>
      rw [hs] at hval hsd ⊢ <;>
      · simp only [match_census_tract, hnFL, hnPA, hval, except_ok_bind, hsucc,
          Bool.not_true, Bool.false_eq_true, if_false, hsd, hmiss,
          fetch_missing_tract_update, hfetch]
  rcases hmem with hs | hs <;>
    · rw [hs] at hval hsd hmatch
      simp [calculate_all_features, hs, SUPPORTED_STATES, hval, hmatch, except_ok_bind,
        except_error_bind]

/-- Concrete geocoder result for the C4 witness. -/
def geoC4 : GeocodeResult := { success := true, geoid := "12099000100" }

/-- C4 witness: a failed demographic fetch for an unknown tract makes the
whole feature calculation fail with the not-found error. -/
theorem missing_tract_error_spec_witness :
    calculate_all_features dQuad geoC4 true (empty_acs_result "12099000100") (some centC3)
      loaderC2 "FL" 28 (-81) none = .error .dataNotFound :=
  missing_tract_error_spec dQuad geoC4 (empty_acs_result "12099000100") (some centC3)
    loaderC2 "FL" 28 (-81) none [] [tractNear, tractFar]
    (by decide)
    (by
      have hn : normalizeState "FL" = "FL" := rfl
      norm_num [validate_coordinates, get_state_bounds, hn, FL_BOUNDS])
    rfl (by rfl) (by decide) (Or.inl rfl)

/-! ### C5: input validation before any feature computation -/

theorem validate_coordinates_rejects (st : String) (bounds : StateBounds)
    (latitude longitude : ℚ)
    (hb : get_state_bounds st = .ok bounds)
    (hout : latitude < -90 ∨ 90 < latitude ∨ longitude < -180 ∨ 180 < longitude ∨
      latitude < bounds.lat_min ∨ bounds.lat_max < latitude ∨
      longitude < bounds.lon_min ∨ bounds.lon_max < longitude) :
    validate_coordinates st latitude longitude = .error .invalidCoordinates := by
  simp only [validate_coordinates, hb]
  split_ifs with h1 h2 h3 h4 <;> try rfl
  exfalso
  push_neg at h1 h2 h3 h4
  rcases hout with h | h | h | h | h | h | h | h <;>
    linarith [h1.1, h1.2, h2.1, h2.2, h3.1, h3.2, h4.1, h4.2]

/-- C5: an unsupported state makes the base-feature calculation fail with
the invalid-state error, and for a supported state any coordinate outside
the basic ranges or outside the state bounding box makes it fail with the
invalid-coordinates error; in both cases no feature record is produced. -/
theorem input_validation_spec (d : DistanceFn) (tract_info : GeocodeResult)
    (acs_available : Bool) (acs : ACSResult) (centroid : Option TractCentroid)
    (loader : MultiStateDataLoader) (state : String) (latitude longitude : ℚ)
    (sq_ft : Option ℚ) :
    (normalizeState state ∉ SUPPORTED_STATES →
      calculate_all_features d tract_info acs_available acs centroid loader state latitude
        longitude sq_ft = .error .invalidState)
    ∧ (∀ bounds : StateBounds,
        (normalizeState state = "FL" ∧ bounds = FL_BOUNDS) ∨
          (normalizeState state = "PA" ∧ bounds = PA_BOUNDS) →
        (latitude < -90 ∨ 90 < latitude ∨ longitude < -180 ∨ 180 < longitude ∨
         latitude < bounds.lat_min ∨ bounds.lat_max < latitude ∨
         longitude < bounds.lon_min ∨ bounds.lon_max < longitude) →
        calculate_all_features d tract_info acs_available acs centroid loader state latitude
          longitude sq_ft = .error .invalidCoordinates) := by
  constructor
  · intro hns
    simp only [calculate_all_features]
    rw [if_pos hns]
  · intro bounds hb hout
    have hnFL : normalizeState "FL" = "FL" := rfl
    have hnPA : normalizeState "PA" = "PA" := rfl
    rcases hb with ⟨hs, rfl⟩ | ⟨hs, rfl⟩ <;>
      · have hrej := validate_coordinates_rejects (normalizeState state) _ latitude
          longitude (by rw [hs]; rfl) hout
        simp only [calculate_all_features, hs, SUPPORTED_STATES, List.mem_cons,
          List.not_mem_nil, or_false, eq_self_iff_true, true_or, or_true, not_true,
          if_false]
        rw [hs] at hrej
        rw [hrej, except_error_bind]

/-- C5 witness: an unsupported state is rejected with the invalid-state
error at concrete inputs. -/
theorem input_validation_spec_witness :
    calculate_all_features dQuad geoC4 true acsC3 (some centC3) loaderC2 "CA" 28 (-81)
      none = .error .invalidState :=
  (input_validation_spec dQuad geoC4 true acsC3 (some centC3) loaderC2 "CA" 28 (-81)
    none).1 (by decide)

/-! ### C9: idempotent resolution, at most one network call -/

/-- C9: after a successful first geocoder lookup, a second lookup whose
coordinates round to the same cache key returns the identical result from
the cache with zero further network calls and an unchanged cache, and the
two invocations together consult the external geocoder at most once; the
ACS demographic lookup, keyed by resolved GEOID, is likewise answered from
its cache with no further network call after a successful first fetch. -/
theorem resolution_idempotent_spec (cache : GeoCache) (geocoder : ℚ × ℚ → GeocodeResult)
    (lat1 lon1 lat2 lon2 : ℚ) (acs_cache : ACSCache) (net : String → ACSNetResponse)
    (sf cf tf : String)
    (hkey : make_cache_key lat2 lon2 = make_cache_key lat1 lon1)
    (hsucc : (get_tract_from_coordinates cache geocoder lat1 lon1).result.success = true) :
    ((get_tract_from_coordinates
        (get_tract_from_coordinates cache geocoder lat1 lon1).cache geocoder lat2 lon2).result
          = (get_tract_from_coordinates cache geocoder lat1 lon1).result
      ∧ (get_tract_from_coordinates
          (get_tract_from_coordinates cache geocoder lat1 lon1).cache geocoder
            lat2 lon2).network_calls = 0
      ∧ (get_tract_from_coordinates
          (get_tract_from_coordinates cache geocoder lat1 lon1).cache geocoder
            lat2 lon2).cache = (get_tract_from_coordinates cache geocoder lat1 lon1).cache
      ∧ (get_tract_from_coordinates cache geocoder lat1 lon1).network_calls +
          (get_tract_from_coordinates
            (get_tract_from_coordinates cache geocoder lat1 lon1).cache geocoder
              lat2 lon2).network_calls ≤ 1)
    ∧ ((get_tract_demographics acs_cache net sf cf tf).result.success = true →
        (get_tract_demographics (get_tract_demographics acs_cache net sf cf tf).cache net
            sf cf tf).result = (get_tract_demographics acs_cache net sf cf tf).result
        ∧ (get_tract_demographics (get_tract_demographics acs_cache net sf cf tf).cache net
            sf cf tf).network_calls = 0) := by
  constructor
  · cases hc : geo_cache_lookup cache (make_cache_key lat1 lon1) with
    | some r =>
      have h1 : get_tract_from_coordinates cache geocoder lat1 lon1 =
          { result := r, cache := cache, network_calls := 0 } := by
        simp only [get_tract_from_coordinates, hc]
      have h2 : get_tract_from_coordinates cache geocoder lat2 lon2 =
          { result := r, cache := cache, network_calls := 0 } := by
        simp only [get_tract_from_coordinates, hkey, hc]
      rw [h1]
      simp [h2]
    | none =>
      by_cases hg : (geocoder (lat1, lon1)).success = true
      · have h1 : get_tract_from_coordinates cache geocoder lat1 lon1 =
            { result := geocoder (lat1, lon1),
              cache := (make_cache_key lat1 lon1, geocoder (lat1, lon1)) :: cache,
              network_calls := 1 } := by
          simp only [get_tract_from_coordinates, hc, if_pos hg]
        have hl : geo_cache_lookup
            ((make_cache_key lat1 lon1, geocoder (lat1, lon1)) :: cache)
            (make_cache_key lat1 lon1) = some (geocoder (lat1, lon1)) := by
          simp [geo_cache_lookup, List.find?_cons]
        have h2 : get_tract_from_coordinates
            ((make_cache_key lat1 lon1, geocoder (lat1, lon1)) :: cache) geocoder
              lat2 lon2 =
            { result := geocoder (lat1, lon1),
              cache := (make_cache_key lat1 lon1, geocoder (lat1, lon1)) :: cache,
              network_calls := 0 } := by
          simp only [get_tract_from_coordinates, hkey, hl]
        rw [h1]
        simp [h2]
      · exfalso
        have h1 : get_tract_from_coordinates cache geocoder lat1 lon1 =
            { result := geocoder (lat1, lon1), cache := cache, network_calls := 1 } := by
          simp only [get_tract_from_coordinates, hc, if_neg hg]
        rw [h1] at hsucc
        exact hg hsucc
  · intro hsucc2
    cases hc : acs_cache.find? (fun e => decide (e.1 = sf ++ cf ++ tf)) with
    | some e =>
      have h1 : get_tract_demographics acs_cache net sf cf tf =
          { result := e.2, cache := acs_cache, network_calls := 0 } := by
        simp only [get_tract_demographics, hc]
      rw [h1]
      simp [h1]
    | none =>
      cases hn : net (sf ++ cf ++ tf) with
      | parsed r =>
        by_cases hr : r.success = true
        · have h1 : get_tract_demographics acs_cache net sf cf tf =
              { result := r, cache := (sf ++ cf ++ tf, r) :: acs_cache,
                network_calls := 1 } := by
            simp only [get_tract_demographics, hc, hn, if_pos hr]
          have hl : ((sf ++ cf ++ tf, r) :: acs_cache).find?
              (fun e => decide (e.1 = sf ++ cf ++ tf)) = some (sf ++ cf ++ tf, r) := by
            simp [List.find?_cons]
          have h2 : get_tract_demographics ((sf ++ cf ++ tf, r) :: acs_cache) net
              sf cf tf =
              { result := r, cache := (sf ++ cf ++ tf, r) :: acs_cache,
                network_calls := 0 } := by
            simp only [get_tract_demographics, hl]
          rw [h1]
          simp [h2]
        · exfalso
          have h1 : get_tract_demographics acs_cache net sf cf tf =
              { result := r, cache := acs_cache, network_calls := 1 } := by
            simp only [get_tract_demographics, hc, hn, if_neg hr]
          rw [h1] at hsucc2
          exact hr hsucc2
      | notFound =>
        exfalso
        have h1 : get_tract_demographics acs_cache net sf cf tf =
            { result := empty_acs_result (sf ++ cf ++ tf),
              cache := (sf ++ cf ++ tf, empty_acs_result (sf ++ cf ++ tf)) :: acs_cache,
              network_calls := 1 } := by
          simp only [get_tract_demographics, hc, hn]
        rw [h1] at hsucc2
        simp [empty_acs_result] at hsucc2
      | unavailable =>
        exfalso
        have h1 : get_tract_demographics acs_cache net sf cf tf =
            { result := empty_acs_result (sf ++ cf ++ tf), cache := acs_cache,
              network_calls := 1 } := by
          simp only [get_tract_demographics, hc, hn]
        rw [h1] at hsucc2
        simp [empty_acs_result] at hsucc2

/-- Concrete always-successful geocoder for the C9 witness. -/
def geocoderW : ℚ × ℚ → GeocodeResult := fun _ => { success := true, geoid := "12095001600" }

/-- Concrete ACS service for the C9 witness: always a successful parse. -/
def acsNetW : String → ACSNetResponse :=
  fun g => .parsed { empty_acs_result g with success := true }

/-- C9 witness: the second lookup of the same concrete coordinates issues
zero network calls. -/
theorem resolution_idempotent_spec_witness :
    (get_tract_from_coordinates (get_tract_from_coordinates [] geocoderW 28 (-81)).cache
      geocoderW 28 (-81)).network_calls = 0 :=
  ((resolution_idempotent_spec [] geocoderW 28 (-81) 28 (-81) [] acsNetW
    "12" "095" "001600" rfl rfl).1).2.1

/-! ### C10: load-time positivity invariant, not preserved by on-demand insert -/

/-- C10: bulk load establishes that every stored tract has a strictly
positive population (rows with missing or non-positive population are
dropped), but on-demand insertion does not preserve this: a successfully
fetched tract whose provider reported no population value is constructed
with total_population = 0 and appended to the state's census table, it
belongs to the tract set that the radius population query filters, and the
positivity invariant fails on the grown table. -/
theorem load_invariant_not_preserved (rows : List RawCensusRow)
    (geoid : String) (acs : ACSResult) (c : TractCentroid)
    (loader : MultiStateDataLoader) (d : DistanceFn) (center : ℚ × ℚ) (r : ℚ)
    (hsucc : acs.success = true) (hnone : acs.total_population = none) :
    (∀ t ∈ load_census_rows rows, 0 < t.total_population)
    ∧ (∀ t, fetch_missing_tract geoid acs (some c) = some t →
        t.total_population = 0
        ∧ fetch_missing_tract_update geoid "FL" acs (some c) loader =
            (some t, { loader with fl_census := loader.fl_census ++ [t] })
        ∧ t ∈ loader.fl_census ++ [t]
        ∧ (d center (t.latitude, t.longitude) ≤ r →
            (t, d center (t.latitude, t.longitude)) ∈
              (tract_distances d center (loader.fl_census ++ [t])).filter
                (fun p => decide (p.2 ≤ r)))
        ∧ ¬ (∀ u ∈ loader.fl_census ++ [t], 0 < u.total_population))
    ∧ fetch_missing_tract geoid acs (some c) ≠ none := by
  have hn : normalizeState "FL" = "FL" := rfl
  refine ⟨?_, ?_, ?_⟩
  · intro t ht
    simp only [load_census_rows, List.mem_map] at ht
    obtain ⟨rrow, hmem, rfl⟩ := ht
    obtain ⟨_, hpred⟩ := List.mem_filter.mp hmem
    cases hpop : rrow.total_population with
    | none =>
      rw [hpop] at hpred
      simp at hpred
    | some p =>
      rw [hpop] at hpred
      simp only [decide_eq_true_eq] at hpred
      simpa [hpop] using hpred
  · intro t ht
    have hfe : fetch_missing_tract geoid acs (some c) = some t := ht
    simp only [fetch_missing_tract, hsucc, Bool.not_true, Bool.false_eq_true, if_false,
      Option.some.injEq] at ht
    have hpop0 : t.total_population = 0 := by
      rw [← ht]
      simp [safe_int, hnone]
    refine ⟨hpop0, ?_, ?_, ?_, ?_⟩
    · simp [fetch_missing_tract_update, hfe, hn]
    · simp
    · intro hd
      refine List.mem_filter.mpr ⟨?_, by simpa using hd⟩
      simp only [tract_distances, List.mem_map]
      exact ⟨t, by simp, rfl⟩
    · intro hall
      have h0 := hall t (by simp)
      rw [hpop0] at h0
      exact lt_irrefl 0 h0
  · simp [fetch_missing_tract, hsucc]

/-- ACS response for the C10 witness: successful but with no population. -/
def acsC10 : ACSResult := { acsC3 with total_population := none }

/-- C10 witness: the on-demand fetch of a tract with no reported
population still constructs a tract (it does not return `None`). -/
theorem load_invariant_not_preserved_witness :
    fetch_missing_tract "12095990000" acsC10 (some centC3) ≠ none :=
  (load_invariant_not_preserved [] "12095990000" acsC10 centC3 loaderC2 dQuad (28, -81) 5
    rfl rfl).2.2

end DispensaryModel
